import Mathlib

/-!
Verification development for the study-buddy content dashboard.

The definitions below are a shallow embedding of the content page
(`fetchSlides`, `deleteSlide`) and the upload form
(`handleFileSelect`, `handleUpload`).  The remote backend (relational
store and blob storage) is abstracted as an environment recording the
outcome of each remote call; the React state setters and toast
notifications are modelled as explicit state records and event traces.
String primitives of the host language are re-implemented over
character lists so that every definition evaluates.
-/

/-- Lower-casing of a character list (used for case-insensitive
matching). -/
def lowerChars (l : List Char) : List Char :=
  l.map Char.toLower

/-- Substring containment over character lists. -/
def charsContain (pat l : List Char) : Bool :=
  l.tails.any (fun t => List.isPrefixOf pat t)

/-- JavaScript `String.prototype.includes`: substring containment. -/
def jsIncludes (s pat : String) : Bool :=
  charsContain pat.data s.data

/-- JavaScript `String.prototype.trim`: strip whitespace from both
ends. -/
def jsTrim (s : String) : String :=
  String.mk (((s.data.dropWhile Char.isWhitespace).reverse.dropWhile
    Char.isWhitespace).reverse)

/-- JavaScript `String.prototype.split` with a one-character
separator. -/
def splitChars (sep : Char) (l : List Char) : List (List Char) :=
  l.foldr
    (fun c acc =>
      match acc with
      | [] => [[c]]
      | h :: t => if c = sep then [] :: h :: t else (c :: h) :: t)
    [[]]

/-- Model of `name.split(".").pop()`: the (possibly extension-less)
file extension used by the upload path generator. -/
def jsExtension (name : String) : String :=
  String.mk ((splitChars '.' name.data).getLastD [])

/-- SQL LIKE pattern matching over character lists: a percent sign
matches any (possibly empty) run of characters, an underscore matches
any single character, every other pattern character matches itself. -/
def likeMatch : List Char → List Char → Bool
  | [], s => s.isEmpty
  | p :: ps, [] => if p = '%' then likeMatch ps [] else false
  | p :: ps, c :: cs =>
    if p = '%' then likeMatch ps (c :: cs) || likeMatch (p :: ps) cs
    else (p == '_' || p == c) && likeMatch ps cs
termination_by p s => (p.length, s.length)

/-- PostgREST `ilike`: case-insensitive LIKE (both sides lower-cased). -/
def ilikeB (pat s : String) : Bool :=
  likeMatch (lowerChars pat.data) (lowerChars s.data)

/-- A slide metadata record, as stored in the `slides` table. -/
structure Slide where
  id : String
  title : String
  description : String
  course_id : String
  file_path : String
  file_url : String
  file_type : String
  file_size : Nat
  created_at : String
  deriving DecidableEq, Repr

/-- One clause of a PostgREST query, in the order the builder applies
them: `ilike`, `eq`, the two `not` variants, and `order`. -/
inductive QueryClause
  | ilike (col pat : String)
  | eq (col val : String)
  | notIlike (col pat : String)
  | notEq (col val : String)
  | order (col : String) (ascending : Bool)
  deriving DecidableEq, Repr

/-- Column lookup used to give filter clauses a semantics on rows. -/
def Slide.colValue (r : Slide) (col : String) : String :=
  if col = ("title") then r.title
  else if col = ("course_id") then r.course_id
  else if col = ("file_type") then r.file_type
  else ("")

/-- Whether a row passes a single (filter) clause; `order` clauses do
not filter. -/
def clausePasses : QueryClause → Slide → Bool
  | QueryClause.ilike col pat, r => ilikeB pat (r.colValue col)
  | QueryClause.eq col v, r => r.colValue col == v
  | QueryClause.notIlike col pat, r => !(ilikeB pat (r.colValue col))
  | QueryClause.notEq col v, r => !(r.colValue col == v)
  | QueryClause.order _ _, _ => true

/-- Query construction of `fetchSlides` (part_000 lines 113-147),
translated clause for clause: search filter, course filter, file-type
filter, then sort order.  JavaScript string truthiness becomes a
non-emptiness test. -/
def buildQuery (searchQuery courseFilter fileTypeFilter sortOrder : String) :
    List QueryClause :=
  let q : List QueryClause := []
  let q := if searchQuery ≠ ("") then
      q ++ [QueryClause.ilike ("title") (("%") ++ searchQuery ++ ("%"))]
    else q
  let q := if courseFilter ≠ ("") then
      q ++ [QueryClause.eq ("course_id") courseFilter]
    else q
  let q := if fileTypeFilter ≠ ("all") then
      if fileTypeFilter = ("image") then
        q ++ [QueryClause.ilike ("file_type") ("image/%")]
      else if fileTypeFilter = ("pdf") then
        q ++ [QueryClause.eq ("file_type") ("application/pdf")]
      else if fileTypeFilter = ("other") then
        q ++ [QueryClause.notIlike ("file_type") ("image/%"),
              QueryClause.notEq ("file_type") ("application/pdf")]
      else q
    else q
  let q := if sortOrder = ("newest") then
      q ++ [QueryClause.order ("created_at") false]
    else if sortOrder = ("oldest") then
      q ++ [QueryClause.order ("created_at") true]
    else if sortOrder = ("a-z") then
      q ++ [QueryClause.order ("title") true]
    else if sortOrder = ("z-a") then
      q ++ [QueryClause.order ("title") false]
    else q
  q

/-- The query composition exactly as the specification words it
(§4.1): text match on title, then course equality, then the type-based
predicate, then one ordering clause per requested sort order. -/
def specFetchQuery (searchQuery courseFilter fileTypeFilter sortOrder : String) :
    List QueryClause :=
  (if searchQuery = ("") then []
   else [QueryClause.ilike ("title") (("%") ++ searchQuery ++ ("%"))])
  ++ (if courseFilter = ("") then []
      else [QueryClause.eq ("course_id") courseFilter])
  ++ (if fileTypeFilter = ("image") then
        [QueryClause.ilike ("file_type") ("image/%")]
      else if fileTypeFilter = ("pdf") then
        [QueryClause.eq ("file_type") ("application/pdf")]
      else if fileTypeFilter = ("other") then
        [QueryClause.notIlike ("file_type") ("image/%"),
         QueryClause.notEq ("file_type") ("application/pdf")]
      else [])
  ++ (if sortOrder = ("newest") then [QueryClause.order ("created_at") false]
      else if sortOrder = ("oldest") then [QueryClause.order ("created_at") true]
      else if sortOrder = ("a-z") then [QueryClause.order ("title") true]
      else [QueryClause.order ("title") false])

/-- Recogniser for ordering clauses. -/
def isOrderClause : QueryClause → Bool
  | QueryClause.order _ _ => true
  | _ => false

/-- The single ordering clause the specification demands for each of
the four sort orders. -/
def expectedOrder (sortOrder : String) : QueryClause :=
  if sortOrder = ("newest") then QueryClause.order ("created_at") false
  else if sortOrder = ("oldest") then QueryClause.order ("created_at") true
  else if sortOrder = ("a-z") then QueryClause.order ("title") true
  else QueryClause.order ("title") false

lemma likeMatch_percent_nil (L : List Char) : likeMatch ['%'] L = true := by
  induction L with
  | nil => simp [likeMatch]
  | cons c cs ih => simp [likeMatch, ih]

lemma likeMatch_lit_percent (pre L : List Char)
    (h : ∀ c ∈ pre, c ≠ '%' ∧ c ≠ '_') :
    likeMatch (pre ++ ['%']) L = List.isPrefixOf pre L := by
  induction pre generalizing L with
  | nil => simpa [List.isPrefixOf] using likeMatch_percent_nil L
  | cons p ps ih =>
    have hp := h p (List.mem_cons_self p ps)
    have hps : ∀ c ∈ ps, c ≠ '%' ∧ c ≠ '_' := fun c hc =>
      h c (List.mem_cons_of_mem p hc)
    have hu : (p == '_') = false := by
      simpa using hp.2
    cases L with
    | nil =>
      simp [likeMatch, List.isPrefixOf, hp.1]
    | cons c cs =>
      simp [likeMatch, List.isPrefixOf, hp.1, hu, ih cs hps]

/-- First-occurrence deduplication, the semantics of
`[...new Set(xs)]`. -/
def jsSetDedup (l : List String) : List String :=
  l.foldl (fun acc x => if acc.contains x then acc else acc ++ [x]) []

/-- Transient-network classification of `fetchSlides` (part_000 lines
227-230): the message contains one of the three network-failure
markers. -/
def isNetworkError (msg : String) : Bool :=
  jsIncludes msg ("Failed to fetch") || jsIncludes msg ("NetworkError") ||
    jsIncludes msg ("connection")

/-- Error-message classification of `fetchSlides` once retries are
exhausted or the error is not transient (part_000 lines 258-274). -/
def classifyError (msg : String) : String :=
  if jsIncludes msg ("Failed to fetch") || jsIncludes msg ("NetworkError") then
    ("Network connection error. Please check your internet connection and try again.")
  else if jsIncludes msg ("permission") || jsIncludes msg ("not allowed") then
    ("You don\x27t have permission to view these slides. Please check your account.")
  else ("Failed to load slides: ") ++ msg

/-- The component state touched by `fetchSlides`: the `useState`
hooks `slides`, `courses`, `isLoaded`, `isFetchingSlides`, `error`. -/
structure FetchState where
  slides : List Slide
  courses : List String
  isLoaded : Bool
  isFetching : Bool
  error : Option String
  deriving DecidableEq, Repr

/-- The initial component state (the `useState` defaults). -/
def initialFetchState : FetchState :=
  { slides := [], courses := [], isLoaded := false, isFetching := false,
    error := none }

/-- Observable actions of one `fetchSlides` invocation: remote calls,
toast notifications, the scheduled retry and the diagnostics run. -/
inductive FetchEvent
  | queryIssued (clauses : List QueryClause)
  | courseFetch
  | toastRetry (delayMs : Nat) (next mx : Nat)
  | toastError (title desc : String)
  | scheduleRetry (delayMs : Nat) (nextCount : Nat)
  | diagnostics
  deriving DecidableEq, Repr

/-- Environment for `fetchSlides`: the filter state read from the
component, and the outcome of every remote call, indexed by the retry
attempt on which it is issued.  `Except.error` carries the error
message of the failed call. -/
structure FetchEnv where
  hasSupabase : Bool
  hasSession : Bool
  searchQuery : String
  courseFilter : String
  fileTypeFilter : String
  sortOrder : String
  testQuery : Nat → Except String Unit
  mainQuery : Nat → Except String (Option (List Slide))
  courseQuery : Nat → Except String (Option (List String))

/-- The error message thrown out of the query phase of `fetchSlides`,
if any: a failed connectivity probe or a failed main query, with the
prefixes the source attaches (lines 109 and 164-168; an empty query
error message falls back to the generic text). -/
def thrownMsg (env : FetchEnv) (rc : Nat) : Option String :=
  match env.testQuery rc with
  | Except.error e => some (("Connection test failed: ") ++ e)
  | Except.ok _ =>
    match env.mainQuery rc with
    | Except.error e =>
      some (("Database query failed: ")
        ++ (if e.data.isEmpty then ("Unknown database error") else e))
    | Except.ok _ => none

/-- The rows the main query delivers on attempt `rc` (empty when the
backend reports no data). -/
def mainRows (env : FetchEnv) (rc : Nat) : List Slide :=
  match env.mainQuery rc with
  | Except.ok (some rows) => rows
  | _ => []

/-- Result of one `fetchSlides` invocation: the new component state,
the trace of observable events, and the retry count of a scheduled
re-invocation, when one was scheduled. -/
structure FetchResult where
  state : FetchState
  events : List FetchEvent
  retry : Option Nat
  deriving Repr

/-- The body of `fetchSlides` up to the end of the inner `try` block
(part_000 lines 101-208): connectivity probe, main query, slide-state
update, and the guarded secondary course fetch whose failure is only
logged.  Returns the thrown error message when the query phase
throws. -/
def fetchBody (env : FetchEnv) (rc : Nat) (st : FetchState) :
    FetchState × List FetchEvent × Option String :=
  match env.testQuery rc with
  | Except.error e =>
    (st, [], some (("Connection test failed: ") ++ e))
  | Except.ok _ =>
    let q := buildQuery env.searchQuery env.courseFilter env.fileTypeFilter
      env.sortOrder
    match env.mainQuery rc with
    | Except.error e =>
      (st, [FetchEvent.queryIssued q],
        some (("Database query failed: ")
          ++ (if e.data.isEmpty then ("Unknown database error") else e)))
    | Except.ok dataOpt =>
      let st1 := { st with slides := dataOpt.getD [] }
      if st.isLoaded then
        (st1, [FetchEvent.queryIssued q], none)
      else
        match env.courseQuery rc with
        | Except.error _ =>
          (st1, [FetchEvent.queryIssued q, FetchEvent.courseFetch], none)
        | Except.ok none =>
          (st1, [FetchEvent.queryIssued q, FetchEvent.courseFetch], none)
        | Except.ok (some rows) =>
          ({ st1 with courses := jsSetDedup rows, isLoaded := true },
            [FetchEvent.queryIssued q, FetchEvent.courseFetch], none)

/-- One invocation of `fetchSlides(retryCount)` (part_000 lines
69-288): the early guards for a missing client or session, the query
body, the catch block (slides reset, retry scheduling or error
classification plus diagnostics), and the `finally` that clears the
loading flag on every exit path. -/
def fetchOnce (env : FetchEnv) (rc : Nat) (st0 : FetchState) : FetchResult :=
  let st := { st0 with isFetching := true, error := none }
  if !env.hasSupabase then
    { state := { st with
        error := some ("Database connection not available. Please try refreshing the page."),
        isFetching := false },
      events := [], retry := none }
  else if !env.hasSession then
    { state := { st with
        error := some ("You need to be logged in to view slides."),
        isFetching := false },
      events := [], retry := none }
  else
    match fetchBody env rc st with
    | (st1, evs, none) =>
      { state := { st1 with isFetching := false }, events := evs,
        retry := none }
    | (st1, evs, some msg) =>
      let st2 := { st1 with slides := [] }
      if isNetworkError msg && rc < 2 then
        let next := rc + 1
        let delay := 1000 * next
        { state := { st2 with isFetching := false },
          events := evs ++ [FetchEvent.toastRetry delay next 2,
            FetchEvent.scheduleRetry delay next],
          retry := some next }
      else
        let st3 := { st2 with error := some (classifyError msg) }
        { state := { st3 with isFetching := false },
          events := evs ++ [FetchEvent.toastError ("Error loading slides") msg,
            FetchEvent.diagnostics],
          retry := none }

/-- Driver running `fetchSlides` together with the retries it
schedules, up to the given fuel (three invocations cover the full
retry budget). -/
def fetchRun : Nat → FetchEnv → Nat → FetchState → FetchState × List FetchEvent
  | 0, _, _, st => (st, [])
  | fuel + 1, env, rc, st =>
    let r := fetchOnce env rc st
    match r.retry with
    | none => (r.state, r.events)
    | some rc2 =>
      let rest := fetchRun fuel env rc2 r.state
      (rest.1, r.events ++ rest.2)

/-- Observable actions of one `deleteSlide` invocation. -/
inductive DelEvent
  | toastDeleting
  | toastConnError
  | storageRemoveAttempt (attempt : Nat) (path : String)
  | waitMs (ms : Nat)
  | dbDeleteCall (id : String)
  | rpcDeleteCall (id : String)
  | refetchCall
  | toastDeleted (desc : String)
  | toastDbError (msg : String)
  | diagnostics
  deriving DecidableEq, Repr

/-- Environment for `deleteSlide`: outcome of the connectivity probe,
of each blob-removal attempt (indexed 0, 1, 2), of the metadata
delete, and of the privileged RPC fallback.  `none` means success,
`some msg` a rejection with the given error message. -/
structure DeleteEnv where
  testQuery : Except String Unit
  storageRemove : Nat → Except String Unit
  dbDelete : Option String
  rpcDelete : Option String

/-- Result of one `deleteSlide` invocation: the displayed collection,
the remote metadata table, and the trace of observable events.
Refetching is modelled as reading back the current remote table. -/
structure DeleteResult where
  slides : List Slide
  optimistic : List Slide
  remote : List Slide
  events : List DelEvent
  deriving Repr

/-- The blob-deletion retry loop of `deleteSlide` (part_000 lines
332-399): up to `maxRetries = 3` attempts, waiting `1000ms ×
retryCount` between attempts.  Returns whether the file was deleted
and the events of the loop. -/
def blobLoop (env : DeleteEnv) (path : String) :
    Nat → Nat → Bool × List DelEvent
  | 0, _ => (false, [])
  | fuel + 1, retryCount =>
    if retryCount < 3 then
      match env.storageRemove retryCount with
      | Except.ok _ => (true, [DelEvent.storageRemoveAttempt retryCount path])
      | Except.error _ =>
        let rc2 := retryCount + 1
        let waits := if rc2 < 3 then [DelEvent.waitMs (1000 * rc2)] else []
        let rest := blobLoop env path fuel rc2
        (rest.1,
          DelEvent.storageRemoveAttempt retryCount path :: (waits ++ rest.2))
    else (false, [])

/-- The message of the success toast of `deleteSlide` (part_000 lines
441-446), depending on whether the blob was actually removed. -/
def deletedToastDesc (fileDeleted : Bool) : String :=
  if fileDeleted then
    ("The slide and file have been successfully deleted.")
  else
    ("The slide has been deleted but there may have been an issue removing the file.")

/-- Whether a metadata-delete rejection is classified as a
permission/policy error (part_000 lines 417-421). -/
def isPermissionError (msg : String) : Bool :=
  jsIncludes msg ("permission") || jsIncludes msg ("policy")

/-- Model of `deleteSlide(slideId, filePath)` (part_000 lines 295-489):
optimistic removal, connectivity probe (aborting with a refetch on
failure), the non-fatal blob-deletion retry loop, the metadata delete
with its privileged RPC fallback on permission errors, and the final
refetch on every remaining path.  The remote table loses the record
exactly when the metadata delete (or its fallback) succeeds. -/
def deleteSlide (env : DeleteEnv) (slideId filePath : String)
    (localSlides remote : List Slide) : DeleteResult :=
  let optimistic := localSlides.filter (fun s => s.id ≠ slideId)
  let evs0 := [DelEvent.toastDeleting]
  match env.testQuery with
  | Except.error _ =>
    { slides := remote, optimistic := optimistic, remote := remote,
      events := evs0 ++ [DelEvent.toastConnError, DelEvent.refetchCall] }
  | Except.ok _ =>
    let blob := if filePath ≠ ("") then blobLoop env filePath 3 0
      else (false, [])
    let evs1 := evs0 ++ blob.2 ++ [DelEvent.dbDeleteCall slideId]
    match env.dbDelete with
    | some m =>
      if isPermissionError m then
        match env.rpcDelete with
        | some rpcMsg =>
          { slides := remote, optimistic := optimistic, remote := remote,
            events := evs1 ++ [DelEvent.rpcDeleteCall slideId,
              DelEvent.toastDbError rpcMsg, DelEvent.refetchCall,
              DelEvent.diagnostics] }
        | none =>
          let remote2 := remote.filter (fun s => s.id ≠ slideId)
          { slides := remote2, optimistic := optimistic, remote := remote2,
            events := evs1 ++ [DelEvent.rpcDeleteCall slideId,
              DelEvent.refetchCall,
              DelEvent.toastDeleted (deletedToastDesc blob.1)] }
      else
        { slides := remote, optimistic := optimistic, remote := remote,
          events := evs1 ++ [DelEvent.toastDbError m, DelEvent.refetchCall,
            DelEvent.diagnostics] }
    | none =>
      let remote2 := remote.filter (fun s => s.id ≠ slideId)
      { slides := remote2, optimistic := optimistic, remote := remote2,
        events := evs1 ++ [DelEvent.refetchCall,
          DelEvent.toastDeleted (deletedToastDesc blob.1)] }

/-- Whether `deleteSlide` ends in a confirmed deletion of the metadata
record: the probe succeeded and either the plain delete succeeded or
the permission-classified rejection was recovered by the RPC
fallback. -/
def metadataDeleteConfirmed (env : DeleteEnv) : Bool :=
  (match env.testQuery with
   | Except.ok _ => true
   | Except.error _ => false)
  && (match env.dbDelete with
      | none => true
      | some m => isPermissionError m && env.rpcDelete.isNone)

/-- A user-selected file: name, MIME type, size in bytes. -/
structure UploadFile where
  name : String
  type : String
  size : Nat
  deriving DecidableEq, Repr

/-- The row inserted into `slides` by the upload flow
(file-upload.tsx lines 166-176). -/
structure SlideInsert where
  title : String
  description : String
  course_id : String
  file_path : String
  file_url : String
  file_type : String
  file_size : Nat
  deriving DecidableEq, Repr

/-- Observable actions of the upload form: toasts, the blob upload,
the public-URL lookup, the metadata insert, a blob removal (never
performed by this flow), and the completion callback. -/
inductive UpEvent
  | toast (title desc : String)
  | storageUpload (path : String)
  | getPublicUrlCall (path : String)
  | dbInsert (row : SlideInsert)
  | storageRemoveCall (path : String)
  | uploadComplete (url : String)
  deriving DecidableEq, Repr

/-- Recogniser for the network calls of the upload flow. -/
def isUploadNetworkEvent : UpEvent → Bool
  | UpEvent.storageUpload _ => true
  | UpEvent.dbInsert _ => true
  | UpEvent.storageRemoveCall _ => true
  | _ => false

/-- The MIME types accepted by `handleFileSelect` (file-upload.tsx
lines 59-64). -/
def validTypes : List String :=
  [("application/pdf"), ("image/jpeg"), ("image/png"), ("image/gif")]

/-- Model of `handleFileSelect(file)` (file-upload.tsx lines 57-85):
validation of MIME type and size.  Returns the new value of
`selectedFile` (`none` leaves it unset) and the emitted toasts. -/
def handleFileSelect (f : UploadFile) : Option UploadFile × List UpEvent :=
  if !(validTypes.contains f.type) then
    (none, [UpEvent.toast ("Invalid file type")
      ("Please upload a PDF or image file (JPEG, PNG, GIF).")])
  else if f.size > 10 * 1024 * 1024 then
    (none, [UpEvent.toast ("File too large")
      ("Please upload a file smaller than 10MB.")])
  else (some f, [])

/-- The form state of the upload component. -/
structure UploadState where
  selectedFile : Option UploadFile
  title : String
  description : String
  courseId : String
  deriving DecidableEq, Repr

/-- Environment for `handleUpload`: the clock and random suffix used
for the storage path, the outcome of the blob upload, the public-URL
resolver, and the outcome of the metadata insert (`none` meaning
success). -/
structure UploadEnv where
  now : Nat
  rand : String
  uploadErr : Option String
  publicUrl : String → String
  insertErr : Option String

/-- The storage path generated for a valid upload (file-upload.tsx
lines 132-137): `slides/` + current time + `-` + random suffix + `.` +
original extension. -/
def uploadPath (env : UploadEnv) (f : UploadFile) : String :=
  ("slides/") ++ toString env.now ++ ("-") ++ env.rand ++ (".")
    ++ jsExtension f.name

/-- Model of `handleUpload()` (file-upload.tsx lines 100-215): validation
of file presence, title and course id; then the blob upload, public
URL lookup and metadata insert, a failure of either sub-step aborting
via the catch block; the form is reset only on full success.  Returns
the new form state and the event trace. -/
def handleUpload (env : UploadEnv) (st : UploadState) :
    UploadState × List UpEvent :=
  match st.selectedFile with
  | none =>
    (st, [UpEvent.toast ("No file selected")
      ("Please select a file to upload.")])
  | some f =>
    if jsTrim st.title = ("") then
      (st, [UpEvent.toast ("Title required")
        ("Please enter a title for your slide.")])
    else if jsTrim st.courseId = ("") then
      (st, [UpEvent.toast ("Course ID required")
        ("Please enter a course ID for your slide.")])
    else
      let filePath := uploadPath env f
      match env.uploadErr with
      | some e =>
        (st, [UpEvent.storageUpload filePath,
          UpEvent.toast ("Upload failed")
            (if e.data.isEmpty then ("An error occurred during upload.")
             else e)])
      | none =>
        let url := env.publicUrl filePath
        let row : SlideInsert :=
          { title := st.title, description := st.description,
            course_id := st.courseId, file_path := filePath,
            file_url := url, file_type := f.type, file_size := f.size }
        match env.insertErr with
        | some e =>
          (st, [UpEvent.storageUpload filePath,
            UpEvent.getPublicUrlCall filePath, UpEvent.dbInsert row,
            UpEvent.toast ("Upload failed")
              (if e.data.isEmpty then ("An error occurred during upload.")
               else e)])
        | none =>
          ({ selectedFile := none, title := ("") , description := ("") ,
             courseId := ("") },
           [UpEvent.storageUpload filePath,
            UpEvent.getPublicUrlCall filePath, UpEvent.dbInsert row,
            UpEvent.toast ("Upload successful")
              ("Your slide has been uploaded successfully."),
            UpEvent.uploadComplete url])

lemma ilikeB_image_prefix_eq (s : String) :
    ilikeB ("image/%") s
      = List.isPrefixOf (("image/").data) (lowerChars s.data) := by
  have h1 : lowerChars (("image/%").data) = ("image/").data ++ ['%'] := by
    decide
  have h2 : ∀ c ∈ ("image/").data, c ≠ '%' ∧ c ≠ '_' := by decide
  unfold ilikeB
  rw [h1, likeMatch_lit_percent _ _ h2]

/-- C1: for every filter state, `fetchSlides` builds the query by
applying, in order, the case-insensitive title substring match when
the search text is non-empty, the `course_id` equality when the
course filter is non-empty, the file-type predicate of the selected
type filter (image: case-insensitive `image/` prefix; pdf: equality
with `application/pdf`; other: negation of both; all: none), and then
exactly one ordering clause per sort order — stated as equality with
the composition the specification describes, together with the
semantic characterisation of the image-prefix and "other" predicates,
the uniqueness of the ordering clause, and its identity. -/
theorem claim_C1_query_composition :
    (∀ sq cf ftf so : String,
      ftf ∈ [("all"), ("image"), ("pdf"), ("other")] →
      so ∈ [("newest"), ("oldest"), ("a-z"), ("z-a")] →
      buildQuery sq cf ftf so = specFetchQuery sq cf ftf so)
    ∧ (∀ s : String, ilikeB ("image/%") s
        = List.isPrefixOf (("image/").data) (lowerChars s.data))
    ∧ (∀ r : Slide,
        (clausePasses (QueryClause.notIlike ("file_type") ("image/%")) r
          && clausePasses
              (QueryClause.notEq ("file_type") ("application/pdf")) r)
        = (!(List.isPrefixOf (("image/").data) (lowerChars r.file_type.data))
            && !(r.file_type == ("application/pdf"))))
    ∧ (∀ sq cf ftf so : String,
      ftf ∈ [("all"), ("image"), ("pdf"), ("other")] →
      so ∈ [("newest"), ("oldest"), ("a-z"), ("z-a")] →
      (buildQuery sq cf ftf so).countP isOrderClause = 1
        ∧ expectedOrder so ∈ buildQuery sq cf ftf so) := by
  refine ⟨?_, ilikeB_image_prefix_eq, ?_, ?_⟩
  · intro sq cf ftf so hft hso
    simp only [List.mem_cons, List.not_mem_nil, or_false] at hft hso
    rcases hft with rfl | rfl | rfl | rfl <;>
      rcases hso with rfl | rfl | rfl | rfl <;>
      by_cases hsq : sq = ("") <;> by_cases hcf : cf = ("") <;>
      simp [buildQuery, specFetchQuery, hsq, hcf]
  · intro r
    have hc : r.colValue ("file_type") = r.file_type := rfl
    show (!(ilikeB ("image/%") (r.colValue ("file_type"))) &&
        !(r.colValue ("file_type") == ("application/pdf"))) = _
    rw [hc, ilikeB_image_prefix_eq]
  · intro sq cf ftf so hft hso
    simp only [List.mem_cons, List.not_mem_nil, or_false] at hft hso
    rcases hft with rfl | rfl | rfl | rfl <;>
      rcases hso with rfl | rfl | rfl | rfl <;>
      by_cases hsq : sq = ("") <;> by_cases hcf : cf = ("") <;>
      simp [buildQuery, expectedOrder, isOrderClause, hsq, hcf]

/-- Witness for C1 at a concrete filter state. -/
theorem claim_C1_query_composition_witness :
    buildQuery ("Ban") ("c1") ("other") ("a-z")
        = specFetchQuery ("Ban") ("c1") ("other") ("a-z")
      ∧ (buildQuery ("") ("") ("image") ("newest")).countP isOrderClause
          = 1 := by
  exact ⟨claim_C1_query_composition.1 ("Ban") ("c1") ("other") ("a-z")
      (by decide) (by decide),
    (claim_C1_query_composition.2.2.2 ("") ("") ("image") ("newest")
      (by decide) (by decide)).1⟩

lemma fetchBody_error_unchanged (env : FetchEnv) (rc : Nat) (st : FetchState) :
    ((fetchBody env rc st).1).error = st.error := by
  unfold fetchBody
  rcases ht : env.testQuery rc with e | u
  · simp
  · rcases hm : env.mainQuery rc with e | d
    · simp
    · by_cases hl : st.isLoaded
      · simp [hl]
      · rcases hc : env.courseQuery rc with e | d2
        · simp [hl]
        · rcases d2 with _ | rows <;> simp [hl]

/-- Recogniser for the pending-retry notification. -/
def isRetryToastEvent : FetchEvent → Bool
  | FetchEvent.toastRetry _ _ _ => true
  | _ => false

/-- Sample slide used by concrete scenarios. -/
def demoSlide : Slide :=
  { id := ("s1"), title := ("Intro"), description := (""),
    course_id := ("c1"), file_path := ("slides/a.pdf"),
    file_url := ("u"), file_type := ("application/pdf"),
    file_size := 5, created_at := ("2024-01-01") }

/-- Environment simulating a transient-network failure on the first
two fetch attempts and success on the third. -/
def c2Env : FetchEnv :=
  { hasSupabase := true, hasSession := true, searchQuery := (""),
    courseFilter := (""), fileTypeFilter := ("all"),
    sortOrder := ("newest"),
    testQuery := fun rc =>
      if rc < 2 then Except.error ("Failed to fetch") else Except.ok (),
    mainQuery := fun _ => Except.ok (some [demoSlide]),
    courseQuery := fun _ => Except.ok (some [("c1")]) }

/-- C2: an error raised by the query phase of `fetchSlides` is
classified as transient-network iff its message contains a
network-failure marker; if transient and `retryCount < 2`, a retry is
scheduled after `1000ms × (retryCount+1)` with a pending-retry
notification and no surfaced error; otherwise the classified message
is surfaced and diagnostics are triggered.  A transient failure on
the first two attempts with success on the third yields the
successful result after exactly two retry notifications. -/
theorem claim_C2_retry_policy :
    (∀ (env : FetchEnv) (rc : Nat) (st : FetchState) (msg : String),
      env.hasSupabase = true → env.hasSession = true →
      thrownMsg env rc = some msg →
      ((isNetworkError msg = true ∧ rc < 2) →
        (fetchOnce env rc st).retry = some (rc + 1)
          ∧ FetchEvent.scheduleRetry (1000 * (rc + 1)) (rc + 1)
              ∈ (fetchOnce env rc st).events
          ∧ FetchEvent.toastRetry (1000 * (rc + 1)) (rc + 1) 2
              ∈ (fetchOnce env rc st).events
          ∧ (fetchOnce env rc st).state.error = none
          ∧ FetchEvent.diagnostics ∉ (fetchOnce env rc st).events)
      ∧ (¬(isNetworkError msg = true ∧ rc < 2) →
        (fetchOnce env rc st).retry = none
          ∧ (fetchOnce env rc st).state.error = some (classifyError msg)
          ∧ FetchEvent.diagnostics ∈ (fetchOnce env rc st).events
          ∧ FetchEvent.toastError ("Error loading slides") msg
              ∈ (fetchOnce env rc st).events))
    ∧ ((fetchRun 3 c2Env 0 initialFetchState).1.slides = [demoSlide]
        ∧ (fetchRun 3 c2Env 0 initialFetchState).1.error = none
        ∧ ((fetchRun 3 c2Env 0 initialFetchState).2.countP
            isRetryToastEvent) = 2) := by
  constructor
  · intro env rc st msg h1 h2 h3
    have hthr : ∀ st', (fetchBody env rc st').2.2 = some msg
        ∧ FetchEvent.diagnostics ∉ (fetchBody env rc st').2.1 := by
      intro st'
      unfold thrownMsg at h3
      unfold fetchBody
      rcases ht : env.testQuery rc with e | u
      · rw [ht] at h3
        simpa using h3
      · rw [ht] at h3
        rcases hm : env.mainQuery rc with e | d
        · rw [hm] at h3
          simpa using h3
        · rw [hm] at h3
          simp at h3
    constructor
    · rintro ⟨hn, hlt⟩
      have hcond : (isNetworkError msg && decide (rc < 2)) = true := by
        simp [hn, hlt]
      unfold fetchOnce
      rw [h1, h2]
      rcases hb : fetchBody env rc { st with isFetching := true, error := none }
        with ⟨st1, evs, m⟩
      have hm : m = some msg := by
        have := (hthr { st with isFetching := true, error := none }).1
        rw [hb] at this
        exact this
      have hd : FetchEvent.diagnostics ∉ evs := by
        have := (hthr { st with isFetching := true, error := none }).2
        rw [hb] at this
        exact this
      have he : st1.error = none := by
        have := fetchBody_error_unchanged env rc
          { st with isFetching := true, error := none }
        rw [hb] at this
        exact this
      subst hm
      simp only [hb]
      simp [hcond, hd, he]
    · intro hn
      have hcond : (isNetworkError msg && decide (rc < 2)) = false := by
        by_cases hb2 : isNetworkError msg = true
        · have hnl : ¬ rc < 2 := fun hlt => hn ⟨hb2, hlt⟩
          simp [hnl]
        · simp only [Bool.not_eq_true] at hb2
          simp [hb2]
      unfold fetchOnce
      rw [h1, h2]
      rcases hb : fetchBody env rc { st with isFetching := true, error := none }
        with ⟨st1, evs, m⟩
      have hm : m = some msg := by
        have := (hthr { st with isFetching := true, error := none }).1
        rw [hb] at this
        exact this
      subst hm
      simp only [hb]
      simp [hcond]
  · decide

/-- Witness for C2: on the scenario environment, the first failing
attempt schedules a retry after 1000ms with no surfaced error. -/
theorem claim_C2_retry_policy_witness :
    (fetchOnce c2Env 0 initialFetchState).retry = some 1
      ∧ (fetchOnce c2Env 0 initialFetchState).state.error = none
      ∧ FetchEvent.scheduleRetry 1000 1
          ∈ (fetchOnce c2Env 0 initialFetchState).events := by
  have h := claim_C2_retry_policy.1 c2Env 0 initialFetchState
    (("Connection test failed: ") ++ ("Failed to fetch")) rfl rfl (by decide)
  have h2 := h.1 (by decide)
  exact ⟨h2.1, h2.2.2.2.1, h2.2.1⟩

lemma fetchBody_thrown (env : FetchEnv) (rc : Nat) (st : FetchState) :
    (fetchBody env rc st).2.2 = thrownMsg env rc := by
  unfold fetchBody thrownMsg
  rcases ht : env.testQuery rc with e | u
  · simp
  · rcases hm : env.mainQuery rc with e | d
    · simp
    · by_cases hl : st.isLoaded
      · simp [hl]
      · rcases hc : env.courseQuery rc with e | d2
        · simp [hl]
        · rcases d2 with _ | rows <;> simp [hl]

/-- C9: every invocation of `fetchSlides` — success, validation
short-circuit, surfaced error, or scheduled retry — ends with the
loading flag reset to `false`, the `finally` guarantee. -/
theorem claim_C9_loading_flag_reset (env : FetchEnv) (rc : Nat)
    (st : FetchState) :
    (fetchOnce env rc st).state.isFetching = false := by
  unfold fetchOnce
  cases hs1 : env.hasSupabase with
  | false => simp
  | true =>
    cases hs2 : env.hasSession with
    | false => simp
    | true =>
      simp only [Bool.not_true, Bool.false_eq_true, if_false]
      rcases hb : fetchBody env rc
        { st with isFetching := true, error := none } with ⟨st1, evs, m⟩
      rcases m with _ | msg
      · rfl
      · dsimp only
        split <;> rfl

/-- C10: whenever the query phase of `fetchSlides` throws — including
a transient error for which a retry is scheduled — the displayed
collection is reset to the empty list, so stale slides are not
retained while an error or a pending retry is in effect. -/
theorem claim_C10_slides_cleared_on_error (env : FetchEnv) (rc : Nat)
    (st : FetchState) (msg : String)
    (h1 : env.hasSupabase = true) (h2 : env.hasSession = true)
    (h3 : thrownMsg env rc = some msg) :
    (fetchOnce env rc st).state.slides = [] := by
  unfold fetchOnce
  rw [h1, h2]
  simp only [Bool.not_true, Bool.false_eq_true, if_false]
  rcases hb : fetchBody env rc
    { st with isFetching := true, error := none } with ⟨st1, evs, m⟩
  have hm : m = some msg := by
    have := fetchBody_thrown env rc
      { st with isFetching := true, error := none }
    rw [hb, h3] at this
    exact this
  subst hm
  dsimp only
  split <;> rfl

/-- Witness for C10 on the scenario environment. -/
theorem claim_C10_slides_cleared_on_error_witness :
    (fetchOnce c2Env 0
      { initialFetchState with slides := [demoSlide] }).state.slides = [] := by
  exact claim_C10_slides_cleared_on_error c2Env 0
    { initialFetchState with slides := [demoSlide] }
    (("Connection test failed: ") ++ ("Failed to fetch")) rfl rfl (by decide)

/-- Environment whose secondary course fetch always fails while the
primary query succeeds. -/
def c8Env : FetchEnv :=
  { hasSupabase := true, hasSession := true, searchQuery := (""),
    courseFilter := (""), fileTypeFilter := ("all"),
    sortOrder := ("newest"),
    testQuery := fun _ => Except.ok (),
    mainQuery := fun _ => Except.ok (some [demoSlide]),
    courseQuery := fun _ => Except.error ("course id fetch failed") }

/-- Counterexample to C8 as stated: when the secondary course fetch
fails on the first successful load, `isLoaded` stays false and the
very next successful load issues the course fetch again — so the
course identifiers are not fetched only on the first successful
load. -/
theorem claim_C8_counterexample :
    ((fetchOnce c8Env 0 initialFetchState).state.slides = [demoSlide]
      ∧ (fetchOnce c8Env 0 initialFetchState).state.error = none
      ∧ FetchEvent.courseFetch ∈ (fetchOnce c8Env 0 initialFetchState).events)
    ∧ FetchEvent.courseFetch ∈
        (fetchOnce c8Env 0 (fetchOnce c8Env 0 initialFetchState).state).events := by
  decide

/-- C8 (amended): `fetchSlides` issues the secondary distinct-course
fetch on every successful primary load while `isLoaded` is still
false (that is, until one course fetch succeeds with data), and a
failure of that secondary fetch is swallowed — no surfaced error, no
error toast, no diagnostics, no retry — leaving the primary result in
place. -/
theorem claim_C8_amended_course_fetch (env : FetchEnv) (rc : Nat)
    (st : FetchState)
    (h1 : env.hasSupabase = true) (h2 : env.hasSession = true) :
    (FetchEvent.courseFetch ∈ (fetchOnce env rc st).events ↔
      (thrownMsg env rc = none ∧ st.isLoaded = false))
    ∧ (∀ e, env.courseQuery rc = Except.error e → thrownMsg env rc = none →
        (fetchOnce env rc st).state.error = none
          ∧ (fetchOnce env rc st).state.slides = mainRows env rc
          ∧ (fetchOnce env rc st).state.isLoaded = st.isLoaded
          ∧ (fetchOnce env rc st).retry = none
          ∧ FetchEvent.diagnostics ∉ (fetchOnce env rc st).events
          ∧ (∀ t d, FetchEvent.toastError t d ∉ (fetchOnce env rc st).events)) := by
  unfold fetchOnce
  rw [h1, h2]
  simp only [Bool.not_true, Bool.false_eq_true, if_false]
  unfold fetchBody thrownMsg mainRows
  rcases ht : env.testQuery rc with e | u
  · dsimp only
    constructor
    · split <;> simp
    · intro e2 hc habs
      simp at habs
  · rcases hm : env.mainQuery rc with e | d
    · dsimp only
      constructor
      · split <;> split <;> simp
      · intro e2 hc habs
        split at habs <;> simp at habs
    · by_cases hl : st.isLoaded
      · simp only [hl, if_true]
        constructor
        · simp [hl]
        · intro e2 hc _
          rcases d with _ | rows <;> simp [hl]
      · simp only [hl, Bool.false_eq_true, if_false]
        rcases hc : env.courseQuery rc with e2 | d2
        · simp only
          constructor
          · simp [hl]
          · intro e3 hc2 _
            rcases d with _ | rows <;> simp
        · rcases d2 with _ | rows2
          · constructor
            · simp [hl]
            · intro e3 hc2 _
              simp [hc] at hc2
          · constructor
            · simp [hl]
            · intro e3 hc2 _
              simp [hc] at hc2

/-- Witness for the amended C8 on the concrete failing-course-fetch
environment. -/
theorem claim_C8_amended_course_fetch_witness :
    FetchEvent.courseFetch ∈ (fetchOnce c8Env 0 initialFetchState).events
      ∧ (fetchOnce c8Env 0 initialFetchState).state.error = none := by
  have h := claim_C8_amended_course_fetch c8Env 0 initialFetchState rfl rfl
  exact ⟨h.1.mpr ⟨rfl, rfl⟩,
    (h.2 ("course id fetch failed") rfl rfl).1⟩

/-- Recogniser for blob-removal attempts. -/
def isStorageAttempt : DelEvent → Bool
  | DelEvent.storageRemoveAttempt _ _ => true
  | _ => false

lemma blobLoop_attempt_count (env : DeleteEnv) (path : String) :
    ∀ fuel rc, ((blobLoop env path fuel rc).2.countP isStorageAttempt) ≤ fuel := by
  intro fuel
  induction fuel with
  | zero => intro rc; simp [blobLoop]
  | succ n ih =>
    intro rc
    unfold blobLoop
    by_cases hrc : rc < 3
    · rw [if_pos hrc]
      rcases hs : env.storageRemove rc with e | u
      · have hw : (if rc + 1 < 3 then [DelEvent.waitMs (1000 * (rc + 1))]
            else []).countP isStorageAttempt = 0 := by
          split <;> simp [isStorageAttempt]
        simp [List.countP_cons, List.countP_append, hw, isStorageAttempt]
        have := ih (rc + 1)
        omega
      · simp [isStorageAttempt]
    · rw [if_neg hrc]
      simp

lemma blobLoop_events_shape (env : DeleteEnv) (path : String) :
    ∀ fuel rc ev, ev ∈ (blobLoop env path fuel rc).2 →
      isStorageAttempt ev = true ∨ ∃ ms, ev = DelEvent.waitMs ms := by
  intro fuel
  induction fuel with
  | zero => intro rc ev h; simp [blobLoop] at h
  | succ n ih =>
    intro rc ev h
    unfold blobLoop at h
    by_cases hrc : rc < 3
    · rw [if_pos hrc] at h
      rcases hs : env.storageRemove rc with e | u
      · rw [hs] at h
        simp only [List.mem_cons, List.mem_append] at h
        rcases h with rfl | h | h
        · left; rfl
        · right
          by_cases h3 : rc + 1 < 3
          · rw [if_pos h3] at h
            simp at h
            exact ⟨1000 * (rc + 1), h⟩
          · rw [if_neg h3] at h
            simp at h
        · exact ih (rc + 1) ev h
      · rw [hs] at h
        simp at h
        subst h
        left; rfl
    · rw [if_neg hrc] at h
      simp at h

lemma rpc_not_in_blobLoop (env : DeleteEnv) (path : String) (fuel rc : Nat)
    (i : String) : DelEvent.rpcDeleteCall i ∉ (blobLoop env path fuel rc).2 := by
  intro h
  rcases blobLoop_events_shape env path fuel rc _ h with h1 | ⟨ms, h2⟩
  · simp [isStorageAttempt] at h1
  · simp at h2

lemma toastDbError_not_in_blobLoop (env : DeleteEnv) (path : String)
    (fuel rc : Nat) (m : String) :
    DelEvent.toastDbError m ∉ (blobLoop env path fuel rc).2 := by
  intro h
  rcases blobLoop_events_shape env path fuel rc _ h with h1 | ⟨ms, h2⟩
  · simp [isStorageAttempt] at h1
  · simp at h2

/-- C3: every exit path of `deleteSlide` triggers a full list
refetch, the displayed collection always ends reconciled with the
remote table (the optimistic removal never outlives one fetch cycle),
and when the metadata deletion is not confirmed the displayed
collection equals — also by id set — the untouched pre-delete remote
state. -/
theorem claim_C3_delete_reconciliation (env : DeleteEnv)
    (slideId filePath : String) (localSlides remote : List Slide) :
    DelEvent.refetchCall
        ∈ (deleteSlide env slideId filePath localSlides remote).events
      ∧ (deleteSlide env slideId filePath localSlides remote).slides
          = (deleteSlide env slideId filePath localSlides remote).remote
      ∧ (metadataDeleteConfirmed env = false →
          (deleteSlide env slideId filePath localSlides remote).slides = remote
            ∧ (deleteSlide env slideId filePath localSlides
                remote).slides.map Slide.id = remote.map Slide.id) := by
  unfold deleteSlide metadataDeleteConfirmed
  rcases ht : env.testQuery with e | u
  · simp
  · rcases hd : env.dbDelete with _ | m
    · simp
    · by_cases hp : isPermissionError m
      · rcases hr : env.rpcDelete with _ | rm
        · simp [hp]
        · simp [hp]
      · simp [hp]

/-- Witness for C3: when the metadata delete is rejected for a
non-permission reason, the displayed collection is restored to the
pre-delete remote state. -/
theorem claim_C3_delete_reconciliation_witness :
    (deleteSlide
        { testQuery := Except.ok (), storageRemove := fun _ => Except.ok (),
          dbDelete := some ("database rejected the request"),
          rpcDelete := none }
        ("s1") ("slides/a.pdf") [] [demoSlide]).slides = [demoSlide] := by
  exact ((claim_C3_delete_reconciliation
    { testQuery := Except.ok (), storageRemove := fun _ => Except.ok (),
      dbDelete := some ("database rejected the request"), rpcDelete := none }
    ("s1") ("slides/a.pdf") [] [demoSlide]).2.2 (by decide)).1

/-- C4: blob removal is attempted at most three times, with waits of
`1000ms × attempt` between attempts; when every attempt fails but the
metadata delete succeeds, the run is exactly three attempts, the two
backoff waits, the metadata delete, the refetch and the
deleted-with-file-issue notification, and the slide is absent from
the final collection. -/
theorem claim_C4_blob_retry_nonfatal :
    (∀ (env : DeleteEnv) (slideId filePath : String)
      (localSlides remote : List Slide),
      ((deleteSlide env slideId filePath localSlides
        remote).events.countP isStorageAttempt) ≤ 3)
    ∧ (∀ (m : Nat → String) (slideId filePath : String)
        (localSlides remote : List Slide), filePath ≠ ("") →
        (deleteSlide
            { testQuery := Except.ok (),
              storageRemove := fun n => Except.error (m n),
              dbDelete := none, rpcDelete := none }
            slideId filePath localSlides remote).events
          = [DelEvent.toastDeleting,
             DelEvent.storageRemoveAttempt 0 filePath,
             DelEvent.waitMs 1000,
             DelEvent.storageRemoveAttempt 1 filePath,
             DelEvent.waitMs 2000,
             DelEvent.storageRemoveAttempt 2 filePath,
             DelEvent.dbDeleteCall slideId, DelEvent.refetchCall,
             DelEvent.toastDeleted (deletedToastDesc false)]
        ∧ ∀ s ∈ (deleteSlide
            { testQuery := Except.ok (),
              storageRemove := fun n => Except.error (m n),
              dbDelete := none, rpcDelete := none }
            slideId filePath localSlides remote).slides, s.id ≠ slideId) := by
  constructor
  · intro env slideId filePath localSlides remote
    unfold deleteSlide
    rcases ht : env.testQuery with e | u
    · simp [isStorageAttempt]
    · have hblob := blobLoop_attempt_count env filePath 3 0
      by_cases hfp : filePath ≠ ("")
      · rcases hd : env.dbDelete with _ | m
        · simp [hfp, isStorageAttempt]
          omega
        · by_cases hp : isPermissionError m
          · rcases hr : env.rpcDelete with _ | rm
            · simp [hfp, hp, isStorageAttempt]
              omega
            · simp [hfp, hp, isStorageAttempt]
              omega
          · simp [hfp, hp, isStorageAttempt]
            omega
      · rcases hd : env.dbDelete with _ | m
        · simp [hfp, isStorageAttempt]
        · by_cases hp : isPermissionError m
          · rcases hr : env.rpcDelete with _ | rm
            · simp [hfp, hp, isStorageAttempt]
            · simp [hfp, hp, isStorageAttempt]
          · simp [hfp, hp, isStorageAttempt]
  · intro m slideId filePath localSlides remote hfp
    constructor
    · simp [deleteSlide, hfp, blobLoop]
    · intro s hs
      simp [deleteSlide, hfp, blobLoop, List.mem_filter] at hs
      exact hs.2

/-- Witness for C4 at a concrete input. -/
theorem claim_C4_blob_retry_nonfatal_witness :
    (deleteSlide
        { testQuery := Except.ok (),
          storageRemove := fun _ => Except.error ("storage unavailable"),
          dbDelete := none, rpcDelete := none }
        ("s1") ("slides/a.pdf") [demoSlide] [demoSlide]).events
      = [DelEvent.toastDeleting,
         DelEvent.storageRemoveAttempt 0 ("slides/a.pdf"),
         DelEvent.waitMs 1000,
         DelEvent.storageRemoveAttempt 1 ("slides/a.pdf"),
         DelEvent.waitMs 2000,
         DelEvent.storageRemoveAttempt 2 ("slides/a.pdf"),
         DelEvent.dbDeleteCall ("s1"), DelEvent.refetchCall,
         DelEvent.toastDeleted (deletedToastDesc false)] := by
  exact (claim_C4_blob_retry_nonfatal.2 (fun _ => ("storage unavailable"))
    ("s1") ("slides/a.pdf") [demoSlide] [demoSlide] (by decide)).1

/-- C5: the metadata record is deleted by its identifier, and the
privileged RPC fallback keyed by the identifier is invoked iff the
plain delete is rejected with a permission/policy-classified error;
when that fallback succeeds no failure is surfaced at all. -/
theorem claim_C5_permission_fallback (env : DeleteEnv)
    (slideId filePath : String) (localSlides remote : List Slide)
    (ht : env.testQuery = Except.ok ()) :
    DelEvent.dbDeleteCall slideId
        ∈ (deleteSlide env slideId filePath localSlides remote).events
      ∧ (DelEvent.rpcDeleteCall slideId
            ∈ (deleteSlide env slideId filePath localSlides remote).events
          ↔ ∃ m, env.dbDelete = some m ∧ isPermissionError m = true)
      ∧ (∀ m, env.dbDelete = some m → isPermissionError m = true →
          env.rpcDelete = none →
          ∀ msg, DelEvent.toastDbError msg
            ∉ (deleteSlide env slideId filePath localSlides remote).events) := by
  unfold deleteSlide
  rw [ht]
  have hrpcb : ∀ fuel rc,
      DelEvent.rpcDeleteCall slideId ∉ (blobLoop env filePath fuel rc).2 :=
    fun fuel rc => rpc_not_in_blobLoop env filePath fuel rc slideId
  have htoastb : ∀ fuel rc msg,
      DelEvent.toastDbError msg ∉ (blobLoop env filePath fuel rc).2 :=
    fun fuel rc msg => toastDbError_not_in_blobLoop env filePath fuel rc msg
  by_cases hfp : filePath ≠ ("")
  · rcases hd : env.dbDelete with _ | m
    · simp [hfp, hrpcb 3 0]
    · by_cases hp : isPermissionError m
      · rcases hr : env.rpcDelete with _ | rm
        · simp [hfp, hp, hrpcb 3 0, htoastb]
        · refine ⟨by simp [hfp, hp], ⟨fun _ => ⟨m, rfl, hp⟩,
            fun _ => by simp [hfp, hp]⟩, ?_⟩
          intro m2 hm2 hp2 hr2
          simp at hr2
      · simp [hfp, hp, hrpcb 3 0]
  · rcases hd : env.dbDelete with _ | m
    · simp [hfp]
    · by_cases hp : isPermissionError m
      · rcases hr : env.rpcDelete with _ | rm
        · simp [hfp, hp]
        · refine ⟨by simp [hfp, hp], ⟨fun _ => ⟨m, rfl, hp⟩,
            fun _ => by simp [hfp, hp]⟩, ?_⟩
          intro m2 hm2 hp2 hr2
          simp at hr2
      · simp [hfp, hp]

/-- Witness for C5: a policy-classified rejection triggers the RPC
fallback, keyed by the slide identifier, and its success surfaces no
failure. -/
theorem claim_C5_permission_fallback_witness :
    DelEvent.rpcDeleteCall ("s1")
      ∈ (deleteSlide
          { testQuery := Except.ok (),
            storageRemove := fun _ => Except.ok (),
            dbDelete := some ("violates row-level security policy"),
            rpcDelete := none }
          ("s1") ("slides/a.pdf") [demoSlide] [demoSlide]).events := by
  exact (claim_C5_permission_fallback
    { testQuery := Except.ok (), storageRemove := fun _ => Except.ok (),
      dbDelete := some ("violates row-level security policy"),
      rpcDelete := none }
    ("s1") ("slides/a.pdf") [demoSlide] [demoSlide] rfl).2.1.mpr
    ⟨("violates row-level security policy"), rfl, by decide⟩

/-- Recogniser for the blob-upload call. -/
def isStorageUploadEvent : UpEvent → Bool
  | UpEvent.storageUpload _ => true
  | _ => false

/-- Recogniser for the metadata-insert call. -/
def isDbInsertEvent : UpEvent → Bool
  | UpEvent.dbInsert _ => true
  | _ => false

/-- C6: the upload flow rejects — before any network call and with a
user-facing validation toast — every file whose MIME type is outside
the accepted set or whose size exceeds 10MB, and every submission
whose trimmed title or course identifier is empty; the form state is
left untouched and no retry happens (the trace is the single
validation toast). -/
theorem claim_C6_upload_validation :
    (∀ f : UploadFile, validTypes.contains f.type = false →
      handleFileSelect f = (none, [UpEvent.toast ("Invalid file type")
        ("Please upload a PDF or image file (JPEG, PNG, GIF).")]))
    ∧ (∀ f : UploadFile, validTypes.contains f.type = true →
        f.size > 10 * 1024 * 1024 →
        handleFileSelect f = (none, [UpEvent.toast ("File too large")
          ("Please upload a file smaller than 10MB.")]))
    ∧ (∀ (env : UploadEnv) (st : UploadState),
        jsTrim st.title = ("") ∨ jsTrim st.courseId = ("") →
        (handleUpload env st).2.countP isUploadNetworkEvent = 0
          ∧ (∃ t d, (handleUpload env st).2 = [UpEvent.toast t d])
          ∧ (handleUpload env st).1 = st) := by
  refine ⟨?_, ?_, ?_⟩
  · intro f h
    have h2 : f.type ∉ validTypes := by simpa using h
    simp [handleFileSelect, h2]
  · intro f h hs
    have h2 : f.type ∈ validTypes := by simpa using h
    simp [handleFileSelect, h2, hs]
  · intro env st h
    rcases hsel : st.selectedFile with _ | f
    · simp [handleUpload, hsel, isUploadNetworkEvent]
    · by_cases ht : jsTrim st.title = ("")
      · simp [handleUpload, hsel, ht, isUploadNetworkEvent]
      · rcases h with h | h
        · exact absurd h ht
        · simp [handleUpload, hsel, ht, h, isUploadNetworkEvent]

/-- A 2MB file with a word-processor MIME type. -/
def docxFile : UploadFile :=
  { name := ("notes.docx"),
    type := ("application/vnd.openxmlformats-officedocument.wordprocessingml.document"),
    size := 2 * 1024 * 1024 }

/-- A 15MB PDF file. -/
def bigPdfFile : UploadFile :=
  { name := ("big.pdf"), type := ("application/pdf"),
    size := 15 * 1024 * 1024 }

/-- A 2MB PDF file. -/
def deckPdfFile : UploadFile :=
  { name := ("deck.pdf"), type := ("application/pdf"),
    size := 2 * 1024 * 1024 }

/-- Witness for C6 at concrete rejected inputs. -/
theorem claim_C6_upload_validation_witness :
    handleFileSelect docxFile
      = (none, [UpEvent.toast ("Invalid file type")
          ("Please upload a PDF or image file (JPEG, PNG, GIF).")])
    ∧ handleFileSelect bigPdfFile
      = (none, [UpEvent.toast ("File too large")
          ("Please upload a file smaller than 10MB.")]) := by
  exact ⟨claim_C6_upload_validation.1 docxFile (by decide),
    claim_C6_upload_validation.2.1 bigPdfFile (by decide) (by decide)⟩

/-- C7: for valid upload input, the storage path is generated from
the current time, the random suffix and the original extension; the
blob upload happens exactly once; exactly one metadata insert
references the resulting public URL and path when the upload
succeeded, and none when it failed; no blob removal (rollback) is
ever issued; and on full success the form is cleared and the
completion callback receives the public URL. -/
theorem claim_C7_upload_happy_path (env : UploadEnv) (st : UploadState)
    (f : UploadFile) (hsel : st.selectedFile = some f)
    (ht : jsTrim st.title ≠ ("")) (hc : jsTrim st.courseId ≠ ("")) :
    ((handleUpload env st).2.countP isStorageUploadEvent = 1
      ∧ UpEvent.storageUpload (uploadPath env f) ∈ (handleUpload env st).2)
    ∧ (env.uploadErr = none →
        (handleUpload env st).2.countP isDbInsertEvent = 1
          ∧ UpEvent.dbInsert
              { title := st.title, description := st.description,
                course_id := st.courseId, file_path := uploadPath env f,
                file_url := env.publicUrl (uploadPath env f),
                file_type := f.type, file_size := f.size }
            ∈ (handleUpload env st).2)
    ∧ (env.uploadErr ≠ none →
        (handleUpload env st).2.countP isDbInsertEvent = 0)
    ∧ (∀ p, UpEvent.storageRemoveCall p ∉ (handleUpload env st).2)
    ∧ (env.uploadErr = none → env.insertErr = none →
        (handleUpload env st).1
            = { selectedFile := none, title := (""), description := (""),
                courseId := ("") }
          ∧ UpEvent.uploadComplete (env.publicUrl (uploadPath env f))
              ∈ (handleUpload env st).2) := by
  rcases hu : env.uploadErr with _ | e
  · rcases hi : env.insertErr with _ | e2
    · simp [handleUpload, hsel, ht, hc, hu, hi, uploadPath,
        isStorageUploadEvent, isDbInsertEvent]
    · simp [handleUpload, hsel, ht, hc, hu, hi, uploadPath,
        isStorageUploadEvent, isDbInsertEvent]
  · simp [handleUpload, hsel, ht, hc, hu, uploadPath,
      isStorageUploadEvent, isDbInsertEvent]

/-- A successful-upload environment with a deterministic clock,
suffix and URL resolver. -/
def c7Env : UploadEnv :=
  { now := 1700000000000, rand := ("abc123"), uploadErr := none,
    publicUrl := fun p => ("https://cdn.example/") ++ p,
    insertErr := none }

/-- A fully valid upload form state. -/
def c7State : UploadState :=
  { selectedFile := some deckPdfFile, title := ("Week 1"),
    description := (""), courseId := ("CS101") }

/-- Witness for C7 on a concrete successful upload. -/
theorem claim_C7_upload_happy_path_witness :
    UpEvent.uploadComplete (c7Env.publicUrl (uploadPath c7Env deckPdfFile))
      ∈ (handleUpload c7Env c7State).2 := by
  exact ((claim_C7_upload_happy_path c7Env c7State deckPdfFile
    rfl (by decide) (by decide)).2.2.2.2 rfl rfl).2
